import Mathlib

/-!
Shallow embedding of `src/AIstreamlit.py` (the "Gamers Compass" Streamlit
application), covering the parts exercised by the specification's claims:

* the `GameInfo` dataclass and its evaluated-once default timestamp,
* the `CacheManager` class (a dict from string keys to `(GameInfo, datetime)`
  pairs with lazy time-based expiry),
* the module-level `deduplicate_snippets` function and the
  `GamersCompass.deduplicate_snippets` method,
* the scraping coroutines `scrape_game_info_async`, `scrape_news` and
  `scrape_guides` (HTTP and HTML parsing abstracted into an outcome value:
  either a response status together with the list of text snippets the
  CSS/`article`/`h3` selectors extract from the body, or a raised network
  exception),
* the prompt template table `_generate_prompt`, and
* the cached fetch-and-generate pipeline `get_game_content_async`, with the
  LLM call abstracted into an oracle from the prompt to either a completion
  (possibly empty/falsy) or a raised exception.

Times are modelled as integers (seconds); `datetime.now()` values are passed
in explicitly as `now` arguments.
-/

/-! ### String helpers

Python's claims talk about "contains as a substring" and "begins with".
These are modelled on the character lists underlying Lean strings. -/

/-- `strLeads needle hay` is true iff the character list `needle` is an
initial segment of `hay`. -/
def strLeads : List Char → List Char → Bool
  | [], _ => true
  | _ :: _, [] => false
  | a :: as, b :: bs => a == b && strLeads as bs

/-- `occursIn needle hay` is true iff `needle` occurs contiguously
somewhere inside `hay`. -/
def occursIn (needle : List Char) : List Char → Bool
  | [] => needle.isEmpty
  | b :: bs => strLeads needle (b :: bs) || occursIn needle bs

/-- Python `needle in hay` for strings. -/
def strOccurs (needle hay : String) : Bool := occursIn needle.data hay.data

/-- Python `s.startswith(p)`. -/
def strBegins (p s : String) : Bool := strLeads p.data s.data

/-- Python `s.lower()`, restricted to the ASCII case mapping (all category
names in the application are ASCII). -/
def pyLower (s : String) : String := ⟨s.data.map Char.toLower⟩

theorem string_data_append (a b : String) : (a ++ b).data = a.data ++ b.data := rfl

theorem strLeads_self_append (xs zs : List Char) : strLeads xs (xs ++ zs) = true := by
  induction xs with
  | nil => rfl
  | cons a as ih => simp [strLeads, ih]

theorem occursIn_of_strLeads {xs ys : List Char} (h : strLeads xs ys = true) :
    occursIn xs ys = true := by
  cases ys with
  | nil =>
    cases xs with
    | nil => rfl
    | cons a as => simp [strLeads] at h
  | cons b bs => simp [occursIn, h]

theorem occursIn_self_append (xs zs : List Char) : occursIn xs (xs ++ zs) = true :=
  occursIn_of_strLeads (strLeads_self_append xs zs)

theorem occursIn_mono_left {xs ys : List Char} (l : List Char)
    (h : occursIn xs ys = true) : occursIn xs (l ++ ys) = true := by
  induction l with
  | nil => simpa using h
  | cons c cs ih => simp [occursIn, ih]

theorem occursIn_self (xs : List Char) : occursIn xs xs = true := by
  have h := occursIn_self_append xs []
  simpa using h

/-! ### `GameInfo`

```python
@dataclass
class GameInfo:
    content: List[str]
    timestamp: datetime = datetime.now()
    source: Optional[str] = None
    category: Optional[str] = None
    error: Optional[str] = None
```

The default value `datetime.now()` is evaluated ONCE, when the class body is
executed at import time, and that single datetime is shared by every
`GameInfo` constructed without an explicit `timestamp=` argument.  It is
therefore modelled as a fixed constant `classDefTime`. -/

structure GameInfo where
  content : List String
  timestamp : Int
  source : Option String
  category : Option String
  error : Option String
deriving DecidableEq, Repr

/-- The one `datetime.now()` evaluated when the `GameInfo` class body runs;
its concrete value is irrelevant, only that it is a single shared constant. -/
def classDefTime : Int := 0

/-- `GameInfo(content=..., source=..., category=..., error=...)` without a
`timestamp=` argument: the shared class-definition-time default is used. -/
def GameInfo.mkDefault (content : List String) (source category error : Option String) :
    GameInfo :=
  { content := content, timestamp := classDefTime, source := source,
    category := category, error := error }

/-! ### `CacheManager`

The Python dict `self.cache` is modelled as a function from keys to an
optional `(GameInfo, timestamp)` pair (the extensional content of the dict;
nothing in the program observes dict iteration order). -/

structure CacheManager where
  cache : String → Option (GameInfo × Int)
  cache_duration : Int

/-- `CacheManager(cache_duration=3600)`. -/
def CacheManager.new (cache_duration : Int := 3600) : CacheManager :=
  { cache := fun _ => none, cache_duration := cache_duration }

/-- ```python
def get(self, key):
    if key in self.cache:
        info, timestamp = self.cache[key]
        if datetime.now() - timestamp < timedelta(seconds=self.cache_duration):
            return info
        del self.cache[key]
    return None
```
Returns the Python return value together with the mutated cache state. -/
def CacheManager.get (m : CacheManager) (key : String) (now : Int) :
    Option GameInfo × CacheManager :=
  match m.cache key with
  | some (info, timestamp) =>
    if now - timestamp < m.cache_duration then (some info, m)
    else (none, { m with cache := fun k => if k = key then none else m.cache k })
  | none => (none, m)

/-- ```python
def set(self, key, value):
    self.cache[key] = (value, datetime.now())
``` -/
def CacheManager.set (m : CacheManager) (key : String) (value : GameInfo) (now : Int) :
    CacheManager :=
  { m with cache := fun k => if k = key then some (value, now) else m.cache k }

/-! ### Snippet deduplication -/

/-- The loop of the module-level `deduplicate_snippets`, carrying the `seen`
set (modelled extensionally as the list of strings added so far). -/
def dedupGo (seen : List String) : List String → List String
  | [] => []
  | snippet :: rest =>
    if snippet ∈ seen then dedupGo seen rest
    else snippet :: dedupGo (snippet :: seen) rest

/-- ```python
def deduplicate_snippets(snippets):
    unique_snippets = []
    seen = set()
    for snippet in snippets:
        if snippet not in seen:
            unique_snippets.append(snippet)
            seen.add(snippet)
    return unique_snippets
``` -/
def deduplicate_snippets (snippets : List String) : List String :=
  dedupGo [] snippets

/-- The method `GamersCompass.deduplicate_snippets`:
```python
def deduplicate_snippets(self, snippets):
    return list(set(snippets))
```
Python's `set` iteration order is unspecified; the model fixes the
first-occurrence order (the same element set, duplicate-free, as any
iteration order of the set).  Every property proved about it below is
insensitive to the order chosen. -/
def dedupMethod (snippets : List String) : List String :=
  deduplicate_snippets snippets

/-! ### Scraping

An outbound HTTP request either completes with a status code and a response
body, or raises (timeout, connection error, ...).  HTML parsing is not
embeddable, so a completed response carries directly the list of text
snippets the relevant BeautifulSoup selector extracts from the body
(`div.BNeawe.s3v9rd.AP7Wnd` texts for the search page; stripped `h3`
headlines inside `article` elements for the IGN page). -/

inductive HttpOutcome where
  /-- The request completed with `status`; `extracted` is what the
  function's BeautifulSoup selector finds in the body. -/
  | success (status : Nat) (extracted : List String)
  /-- The request (or reading the body) raised; `msg` is `str(e)`. -/
  | failure (msg : String)
deriving DecidableEq, Repr

/-- ```python
async def scrape_game_info_async(self, game_name, category):
    try:
        async with self.session.get(search_url, headers=headers, timeout=10) as response:
            if response.status == 200:
                ...
                snippets = self.deduplicate_snippets([...])[:5]
                return snippets if snippets else ["No relevant information found."]
            else:
                return ["Unable to retrieve information due to server response."]
    except Exception as e:
        return [f"Unable to retrieve information: {str(e)}"]
``` -/
def scrape_game_info_async (outcome : HttpOutcome) : List String :=
  match outcome with
  | .success status extracted =>
    if status = 200 then
      let snippets := (dedupMethod extracted).take 5
      if snippets.isEmpty then ["No relevant information found."] else snippets
    else ["Unable to retrieve information due to server response."]
  | .failure msg => ["Unable to retrieve information: " ++ msg]

/-- The result of `scrape_news` / `scrape_guides`: on HTTP 200 a list of
headline strings, otherwise the bare string `"Incorrect Game Title!"`
(a `str`, not a list). -/
inductive NewsResult where
  | items (l : List String)
  | errMsg (s : String)
deriving DecidableEq, Repr

/-- ```python
async def scrape_news(self, game_name):
    ...
    async with aiohttp.ClientSession() as session:
        async with session.get(url) as response:
            if response.status == 200:
                ... news_items ...
                return news_items
            else:
                return "Incorrect Game Title!"
```
There is no `try`/`except`: a network failure propagates to the caller,
modelled as `Except.error`. -/
def scrape_news (outcome : HttpOutcome) : Except String NewsResult :=
  match outcome with
  | .success status headlines =>
    if status = 200 then .ok (.items headlines) else .ok (.errMsg "Incorrect Game Title!")
  | .failure msg => .error msg

/-- `scrape_guides` is textually the same as `scrape_news` (same URL, same
selectors, same non-200 string, no `try`/`except`). -/
def scrape_guides (outcome : HttpOutcome) : Except String NewsResult :=
  match outcome with
  | .success status headlines =>
    if status = 200 then .ok (.items headlines) else .ok (.errMsg "Incorrect Game Title!")
  | .failure msg => .error msg

/-! ### `_generate_prompt` -/

/-- The keys of the `prompts` dict in `_generate_prompt` (the same eight
categories as the class-level `CATEGORIES` table). -/
def knownCategories : List String :=
  ["Installation", "Guideline", "News", "Review", "Speedrun", "Mods",
   "Tips & Tricks", "Community"]

/-- ```python
def _generate_prompt(self, category, game_name, context):
    prompts = { "Installation": f"...", ..., "Community": f"..." }
    return prompts.get(category, f"Provide {category.lower()} information for {game_name}. Context: {context}")
```
`dict.get` on the literal keys is modelled by the matching chain below;
each f-string is the corresponding explicit concatenation. -/
def generatePrompt (category game_name context : String) : String :=
  if category = "Installation" then
    "Provide step-by-step installation instructions for " ++ game_name ++
      ", including system requirements and common troubleshooting tips. Context: " ++ context
  else if category = "Guideline" then
    "Provide a detailed gameplay guide for " ++ game_name ++
      ". Focus on key areas such as getting started effectively, building characters or skills optimally, and strategic tips for progressing through critical game stages. Context: " ++ context
  else if category = "News" then
    "Summarize the latest news and updates about " ++ game_name ++
      ", including new releases, patches, upcoming events, or developer announcements. Context: " ++ context
  else if category = "Review" then
    "Create a comprehensive review of " ++ game_name ++
      " covering gameplay, graphics, story, and value for money. Include both pros and cons. Context: " ++ context
  else if category = "Speedrun" then
    "Explain the main speedrunning strategies and current records for " ++ game_name ++
      ", including key techniques and shortcuts. Context: " ++ context
  else if category = "Mods" then
    "List and describe the most popular and essential mods for " ++ game_name ++
      ", including installation instructions. Context: " ++ context
  else if category = "Tips & Tricks" then
    "Share advanced tips, secret techniques, and strategic advice for mastering " ++
      game_name ++ ". Context: " ++ context
  else if category = "Community" then
    "Describe the active community spaces, events, and resources for " ++ game_name ++
      " players. Context: " ++ context
  else
    "Provide " ++ pyLower category ++ " information for " ++ game_name ++
      ". Context: " ++ context

/-! ### `get_game_content_async` -/

/-- The observable effect of one `get_game_content_async` call: the returned
`GameInfo`, the cache state afterwards, and how many outbound scrape
requests and LLM invocations the call issued. -/
structure FetchResult where
  info : GameInfo
  state : CacheManager
  scrapeCalls : Nat
  llmCalls : Nat

/-- ```python
async def get_game_content_async(self, category, game_name):
    cache_key = f"{category}_{game_name}"
    cached_result = self.cache_manager.get(cache_key)
    if cached_result:
        return cached_result
    try:
        snippets = await self.scrape_game_info_async(game_name, category)
        if category.lower() in ["guideline", "news"]:
            result = GameInfo(content=snippets, category=category, source="web_scraping")
        else:
            prompt = self._generate_prompt(category, game_name, snippets[0])
            ... response = model.generate_content(prompt)
            result = GameInfo(content=[response.text] if response else ['No content available'],
                              category=category, source="gemini")
        self.cache_manager.set(cache_key, result)
        return result
    except Exception as e:
        error_msg = f"Error generating content: {str(e)}"
        return GameInfo(content=[], error=error_msg)
```

A `GameInfo` dataclass instance is always truthy, so `if cached_result:` is
`is not None`.  The network request underlying the scrape is the `outcome`
argument; the LLM is the oracle `llm`, mapping the prompt to `Except.error e`
(the call raised `e`) or `Except.ok r` with `r = none` when `response` is
falsy (`[response.text] if response else ['No content available']`).
`snippets[0]` on an empty list raises `IndexError("list index out of
range")`, which the `except` catches like any other exception. -/
def get_game_content_async (m : CacheManager) (now : Int) (category game_name : String)
    (outcome : HttpOutcome) (llm : String → Except String (Option String)) : FetchResult :=
  let cache_key := category ++ "_" ++ game_name
  match m.get cache_key now with
  | (some cached_result, m1) => ⟨cached_result, m1, 0, 0⟩
  | (none, m1) =>
    let snippets := scrape_game_info_async outcome
    if pyLower category ∈ (["guideline", "news"] : List String) then
      let result := GameInfo.mkDefault snippets (some "web_scraping") (some category) none
      ⟨result, m1.set cache_key result now, 1, 0⟩
    else
      match snippets with
      | [] =>
        ⟨GameInfo.mkDefault [] none none
          (some ("Error generating content: " ++ "list index out of range")), m1, 1, 0⟩
      | context :: _ =>
        match llm (generatePrompt category game_name context) with
        | .error e =>
          ⟨GameInfo.mkDefault [] none none (some ("Error generating content: " ++ e)),
            m1, 1, 1⟩
        | .ok response =>
          let result := GameInfo.mkDefault
            (match response with | some t => [t] | none => ["No content available"])
            (some "gemini") (some category) none
          ⟨result, m1.set cache_key result now, 1, 1⟩

/-! ### Deduplication lemmas -/

theorem mem_dedupGo (x : String) (seen l : List String) :
    x ∈ dedupGo seen l ↔ x ∈ l ∧ x ∉ seen := by
  induction l generalizing seen with
  | nil => simp [dedupGo]
  | cons s rest ih =>
    by_cases hs : s ∈ seen
    · rw [dedupGo, if_pos hs, ih]
      constructor
      · rintro ⟨h1, h2⟩
        exact ⟨List.mem_cons_of_mem _ h1, h2⟩
      · rintro ⟨h1, h2⟩
        rcases List.mem_cons.mp h1 with rfl | h1
        · exact absurd hs h2
        · exact ⟨h1, h2⟩
    · rw [dedupGo, if_neg hs]
      constructor
      · intro hx
        rcases List.mem_cons.mp hx with rfl | hx
        · exact ⟨List.mem_cons_self _ _, hs⟩
        · obtain ⟨h1, h2⟩ := (ih _).mp hx
          exact ⟨List.mem_cons_of_mem _ h1,
            fun hseen => h2 (List.mem_cons_of_mem _ hseen)⟩
      · rintro ⟨h1, h2⟩
        rcases List.mem_cons.mp h1 with rfl | h1
        · exact List.mem_cons_self _ _
        · by_cases hxs : x = s
          · subst hxs
            exact List.mem_cons_self _ _
          · refine List.mem_cons_of_mem _ ((ih _).mpr ⟨h1, fun hmem => ?_⟩)
            rcases List.mem_cons.mp hmem with h | h
            · exact hxs h
            · exact h2 h

theorem nodup_dedupGo (seen l : List String) : (dedupGo seen l).Nodup := by
  induction l generalizing seen with
  | nil => simp [dedupGo]
  | cons s rest ih =>
    by_cases hs : s ∈ seen
    · rw [dedupGo, if_pos hs]
      exact ih seen
    · rw [dedupGo, if_neg hs]
      refine List.nodup_cons.mpr ⟨fun hmem => ?_, ih _⟩
      exact ((mem_dedupGo s _ rest).mp hmem).2 (List.mem_cons_self _ _)

/-- C8: both deduplication routines (the module-level `deduplicate_snippets`
and the `GamersCompass.deduplicate_snippets` method used by the scraper)
return a list without repetitions that has exactly the distinct strings of
the input — every input string is kept at least once and nothing else
appears — with duplicates identified by exact string equality. -/
theorem dedup_removes_exact_duplicates (l : List String) :
    (deduplicate_snippets l).Nodup
    ∧ (∀ x : String, x ∈ deduplicate_snippets l ↔ x ∈ l)
    ∧ (dedupMethod l).Nodup
    ∧ (∀ x : String, x ∈ dedupMethod l ↔ x ∈ l) := by
  have h1 : (deduplicate_snippets l).Nodup := nodup_dedupGo [] l
  have h2 : ∀ x : String, x ∈ deduplicate_snippets l ↔ x ∈ l := by
    intro x
    have := mem_dedupGo x [] l
    simpa [deduplicate_snippets] using this
  exact ⟨h1, h2, h1, h2⟩

/-! ### Cache claims -/

/-- C1: after `set(k, v)` at time `now1`, a `get(k)` strictly before the
cache duration has elapsed returns `v`; a `get(k)` once the age reaches or
exceeds the duration returns `None` and removes `k` from the cache dict. -/
theorem cacheManager_set_get_expiry (m : CacheManager) (k : String) (v : GameInfo)
    (now1 now2 now3 : Int)
    (hfresh : now2 - now1 < m.cache_duration)
    (hexp : m.cache_duration ≤ now3 - now1) :
    ((m.set k v now1).get k now2).1 = some v
    ∧ ((m.set k v now1).get k now3).1 = none
    ∧ ((m.set k v now1).get k now3).2.cache k = none := by
  refine ⟨?_, ?_, ?_⟩ <;>
    simp [CacheManager.set, CacheManager.get, hfresh, not_lt.mpr hexp]

/-- Concrete run of C1: duration 3600, written at time 0, read back at
times 10 (fresh) and 3600 (expired). -/
theorem cacheManager_set_get_expiry_witness :
    (((CacheManager.new 3600).set "Review_Chess"
        (GameInfo.mkDefault ["v"] none none none) 0).get "Review_Chess" 10).1
      = some (GameInfo.mkDefault ["v"] none none none)
    ∧ (((CacheManager.new 3600).set "Review_Chess"
        (GameInfo.mkDefault ["v"] none none none) 0).get "Review_Chess" 3600).1 = none
    ∧ (((CacheManager.new 3600).set "Review_Chess"
        (GameInfo.mkDefault ["v"] none none none) 0).get "Review_Chess" 3600).2.cache
        "Review_Chess" = none :=
  cacheManager_set_get_expiry (CacheManager.new 3600) "Review_Chess"
    (GameInfo.mkDefault ["v"] none none none) 0 10 3600 (by decide) (by decide)

/-! ### `GameInfo` default-timestamp claim -/

/-- C9: the `timestamp` dataclass default `datetime.now()` is evaluated once,
when the class body runs: any two `GameInfo` values constructed without an
explicit `timestamp=` argument carry the same timestamp, namely the shared
class-definition-time value. -/
theorem gameInfo_shared_default_timestamp (c1 c2 : List String)
    (s1 g1 e1 s2 g2 e2 : Option String) :
    (GameInfo.mkDefault c1 s1 g1 e1).timestamp = (GameInfo.mkDefault c2 s2 g2 e2).timestamp
    ∧ (GameInfo.mkDefault c1 s1 g1 e1).timestamp = classDefTime :=
  ⟨rfl, rfl⟩

/-! ### Scraper success shape (C10) -/

/-- C10: on an HTTP 200 response, `scrape_game_info_async` returns a
non-empty list of at most 5 strings: the first 5 deduplicated extracted
snippets when any snippet was extracted, and the single string
`"No relevant information found."` when none was. -/
theorem scrape_success_shape (extracted : List String) (hne : extracted ≠ []) :
    scrape_game_info_async (.success 200 extracted) = (dedupMethod extracted).take 5
    ∧ (scrape_game_info_async (.success 200 extracted)).isEmpty = false
    ∧ (scrape_game_info_async (.success 200 extracted)).length ≤ 5
    ∧ scrape_game_info_async (.success 200 []) = ["No relevant information found."] := by
  obtain ⟨a, t, rfl⟩ : ∃ a t, extracted = a :: t := by
    cases extracted with
    | nil => exact absurd rfl hne
    | cons a t => exact ⟨a, t, rfl⟩
  have hd : dedupMethod (a :: t) = a :: dedupGo [a] t := by
    simp [dedupMethod, deduplicate_snippets, dedupGo]
  have hEmpty : ((dedupMethod (a :: t)).take 5).isEmpty = false := by
    rw [hd]
    rfl
  have he : scrape_game_info_async (.success 200 (a :: t)) = (dedupMethod (a :: t)).take 5 := by
    simp [scrape_game_info_async, hEmpty]
  refine ⟨he, ?_, ?_, rfl⟩
  · rw [he]
    exact hEmpty
  · rw [he]
    simp [List.length_take]

/-- Concrete run of C10 on the extracted snippets `["a", "a", "b"]`. -/
theorem scrape_success_shape_witness :
    scrape_game_info_async (.success 200 ["a", "a", "b"])
      = (dedupMethod ["a", "a", "b"]).take 5
    ∧ (scrape_game_info_async (.success 200 ["a", "a", "b"])).isEmpty = false
    ∧ (scrape_game_info_async (.success 200 ["a", "a", "b"])).length ≤ 5
    ∧ scrape_game_info_async (.success 200 []) = ["No relevant information found."] :=
  scrape_success_shape ["a", "a", "b"] (by decide)

/-! ### Prompt builder (C3, C4) -/

/-- Every category template has the shape
`literal ++ game_name ++ literal ++ context`; both interpolated arguments
occur in such a string. -/
theorem occurs_in_template (l1 nd l2 cd : String) :
    strOccurs nd (l1 ++ nd ++ l2 ++ cd) = true
    ∧ strOccurs cd (l1 ++ nd ++ l2 ++ cd) = true := by
  have hdata : (l1 ++ nd ++ l2 ++ cd).data
      = l1.data ++ (nd.data ++ (l2.data ++ cd.data)) := by
    simp only [string_data_append, List.append_assoc]
  constructor
  · show occursIn nd.data (l1 ++ nd ++ l2 ++ cd).data = true
    rw [hdata]
    exact occursIn_mono_left _ (occursIn_self_append _ _)
  · show occursIn cd.data (l1 ++ nd ++ l2 ++ cd).data = true
    rw [hdata]
    exact occursIn_mono_left _ (occursIn_mono_left _
      (occursIn_mono_left _ (occursIn_self _)))

/-- C3: for every category in the statically enumerated known set, the
prompt built by `_generate_prompt` contains the game name and the context
snippet verbatim as substrings.  (`_generate_prompt` reads none of the
object's state and performs no effect, so it is embedded as — and is — a
pure function of its three arguments.) -/
theorem generatePrompt_known_contains (c game_name context : String)
    (hc : c ∈ knownCategories) :
    strOccurs game_name (generatePrompt c game_name context) = true
    ∧ strOccurs context (generatePrompt c game_name context) = true := by
  simp only [knownCategories, List.mem_cons, List.not_mem_nil, or_false] at hc
  rcases hc with rfl | rfl | rfl | rfl | rfl | rfl | rfl | rfl <;>
    exact ⟨(occurs_in_template _ _ _ _).1, (occurs_in_template _ _ _ _).2⟩

/-- Concrete run of C3: the "Review" template for game "Chess" with the
scraped context snippet. -/
theorem generatePrompt_known_contains_witness :
    strOccurs "Chess"
        (generatePrompt "Review" "Chess" "Chess is a two-player strategy game") = true
    ∧ strOccurs "Chess is a two-player strategy game"
        (generatePrompt "Review" "Chess" "Chess is a two-player strategy game") = true :=
  generatePrompt_known_contains "Review" "Chess" "Chess is a two-player strategy game"
    (by decide)

/-- C4 as stated is false: the fallback template interpolates
`category.lower()`, not `category`, so a mixed-case unknown category name
does not occur verbatim in the result.  At category `"DLC"` (with game name
`"Game"` and context `"Ctx"`) the fallback is taken yet `"DLC"` is not a
substring of the output. -/
theorem generatePrompt_unknown_counterexample :
    knownCategories.contains "DLC" = false
    ∧ strOccurs "DLC" (generatePrompt "DLC" "Game" "Ctx") = false := by
  constructor
  · rfl
  · rfl

/-- C4 (amended): for every category outside the known template set,
`_generate_prompt` returns the generic fallback template, and that string
contains the lowercased category name as a substring. -/
theorem generatePrompt_unknown_fallback (c game_name context : String)
    (hc : c ∉ knownCategories) :
    generatePrompt c game_name context
      = "Provide " ++ pyLower c ++ " information for " ++ game_name ++
          ". Context: " ++ context
    ∧ strOccurs (pyLower c) (generatePrompt c game_name context) = true := by
  simp only [knownCategories, List.mem_cons, List.not_mem_nil, or_false, not_or] at hc
  obtain ⟨h1, h2, h3, h4, h5, h6, h7, h8⟩ := hc
  have he : generatePrompt c game_name context
      = "Provide " ++ pyLower c ++ " information for " ++ game_name ++
          ". Context: " ++ context := by
    simp only [generatePrompt, if_neg h1, if_neg h2, if_neg h3, if_neg h4, if_neg h5,
      if_neg h6, if_neg h7, if_neg h8]
  refine ⟨he, ?_⟩
  rw [he]
  simp only [strOccurs, string_data_append, List.append_assoc]
  exact occursIn_mono_left _ (occursIn_self_append _ _)

/-- Concrete run of the amended C4 at the unknown category `"dlc"` (already
lowercase, so the claim's substring property also holds literally there). -/
theorem generatePrompt_unknown_fallback_witness :
    generatePrompt "dlc" "Game" "Ctx"
      = "Provide " ++ pyLower "dlc" ++ " information for " ++ "Game" ++
          ". Context: " ++ "Ctx"
    ∧ strOccurs (pyLower "dlc") (generatePrompt "dlc" "Game" "Ctx") = true :=
  generatePrompt_unknown_fallback "dlc" "Game" "Ctx" (by decide)

/-! ### Scraper failure handling (C2) -/

/-- C2 as stated is false: it asserts that *each* scraping operation returns
a one-element list of a string beginning with `"Unable to retrieve"` on
non-200 status or network failure, but `scrape_news` (and `scrape_guides`)
on a non-200 response returns the bare string `"Incorrect Game Title!"` —
not a list, and not in the sentinel family — and has no `try`/`except`, so
a network failure propagates as an exception.  Concrete input: HTTP status
404. -/
theorem scrape_news_not_sentinel_counterexample :
    scrape_news (.success 404 []) = .ok (.errMsg "Incorrect Game Title!")
    ∧ strBegins "Unable to retrieve" "Incorrect Game Title!" = false
    ∧ scrape_news (.failure "timeout") = .error "timeout" :=
  ⟨rfl, rfl, rfl⟩

/-- C2 (amended): `scrape_game_info_async` returns exactly one sentinel
string beginning with `"Unable to retrieve"` on a non-200 status and on a
raised network failure; `scrape_news` and `scrape_guides`, by contrast,
return the bare string `"Incorrect Game Title!"` on a non-200 status and
let a network failure propagate as an exception. -/
theorem scrape_failure_sentinels (status : Nat) (extracted headlines : List String)
    (err : String) (hne : status ≠ 200) :
    scrape_game_info_async (.success status extracted)
      = ["Unable to retrieve information due to server response."]
    ∧ strBegins "Unable to retrieve"
        "Unable to retrieve information due to server response." = true
    ∧ scrape_game_info_async (.failure err) = ["Unable to retrieve information: " ++ err]
    ∧ strBegins "Unable to retrieve" ("Unable to retrieve information: " ++ err) = true
    ∧ scrape_news (.success status headlines) = .ok (.errMsg "Incorrect Game Title!")
    ∧ scrape_news (.failure err) = .error err
    ∧ scrape_guides (.success status headlines) = .ok (.errMsg "Incorrect Game Title!")
    ∧ scrape_guides (.failure err) = .error err := by
  refine ⟨?_, rfl, rfl, ?_, ?_, rfl, ?_, rfl⟩
  · simp [scrape_game_info_async, hne]
  · show strLeads "Unable to retrieve".data
      ("Unable to retrieve information: " ++ err).data = true
    have h2 : ("Unable to retrieve information: " ++ err).data
        = "Unable to retrieve".data ++ (" information: ".data ++ err.data) := by
      rw [string_data_append]
      have h3 : "Unable to retrieve information: ".data
          = "Unable to retrieve".data ++ " information: ".data := rfl
      rw [h3, List.append_assoc]
    rw [h2]
    exact strLeads_self_append _ _
  · simp [scrape_news, hne]
  · simp [scrape_guides, hne]

/-- Concrete run of the amended C2: status 404 and a raised `"timeout"`. -/
theorem scrape_failure_sentinels_witness :
    scrape_game_info_async (.success 404 [])
      = ["Unable to retrieve information due to server response."]
    ∧ strBegins "Unable to retrieve"
        "Unable to retrieve information due to server response." = true
    ∧ scrape_game_info_async (.failure "timeout")
      = ["Unable to retrieve information: " ++ "timeout"]
    ∧ strBegins "Unable to retrieve"
        ("Unable to retrieve information: " ++ "timeout") = true
    ∧ scrape_news (.success 404 ["h"]) = .ok (.errMsg "Incorrect Game Title!")
    ∧ scrape_news (.failure "timeout") = .error "timeout"
    ∧ scrape_guides (.success 404 ["h"]) = .ok (.errMsg "Incorrect Game Title!")
    ∧ scrape_guides (.failure "timeout") = .error "timeout" :=
  scrape_failure_sentinels 404 [] ["h"] "timeout" (by decide)

/-! ### `get_game_content_async` lemmas -/

theorem CacheManager.get_duration (m : CacheManager) (key : String) (now : Int) :
    ((m.get key now).2).cache_duration = m.cache_duration := by
  unfold CacheManager.get
  cases h : m.cache key with
  | none => rfl
  | some p =>
    rcases p with ⟨info, ts⟩
    dsimp only
    split <;> rfl

theorem get_game_content_async_duration (m : CacheManager) (now : Int)
    (category game_name : String) (outcome : HttpOutcome)
    (llm : String → Except String (Option String)) :
    (get_game_content_async m now category game_name outcome llm).state.cache_duration
      = m.cache_duration := by
  unfold get_game_content_async
  dsimp only
  rcases hget : m.get (category ++ "_" ++ game_name) now with ⟨o, m1⟩
  have hdur : m1.cache_duration = m.cache_duration := by
    have h := CacheManager.get_duration m (category ++ "_" ++ game_name) now
    rw [hget] at h
    exact h
  cases o with
  | some cached => exact hdur
  | none =>
    dsimp only
    split
    · exact hdur
    · split
      · exact hdur
      · split <;> exact hdur

/-- A fresh cache hit: the call is answered from the cache, the state is
untouched and no scrape or LLM request is made. -/
theorem get_game_content_async_hit (m : CacheManager) (now : Int)
    (category game_name : String) (outcome : HttpOutcome)
    (llm : String → Except String (Option String)) (info : GameInfo) (ts : Int)
    (hc : m.cache (category ++ "_" ++ game_name) = some (info, ts))
    (hf : now - ts < m.cache_duration) :
    get_game_content_async m now category game_name outcome llm = ⟨info, m, 0, 0⟩ := by
  have hget : m.get (category ++ "_" ++ game_name) now = (some info, m) := by
    unfold CacheManager.get
    rw [hc]
    simp [hf]
  unfold get_game_content_async
  dsimp only
  rw [hget]

/-- On a cache miss exactly one scrape request goes out, whatever happens
afterwards. -/
theorem get_game_content_async_miss_scrapes (m : CacheManager) (now : Int)
    (category game_name : String) (outcome : HttpOutcome)
    (llm : String → Except String (Option String))
    (hmiss : (m.get (category ++ "_" ++ game_name) now).1 = none) :
    (get_game_content_async m now category game_name outcome llm).scrapeCalls = 1 := by
  unfold get_game_content_async
  dsimp only
  rcases hget : m.get (category ++ "_" ++ game_name) now with ⟨o, m1⟩
  rw [hget] at hmiss
  dsimp only at hmiss
  subst hmiss
  dsimp only
  split
  · rfl
  · split
    · rfl
    · split <;> rfl

/-- C5: on a cache miss with a successful scrape and LLM call, a category
that is neither "guideline" nor "news" (lowercased) yields a `GameInfo`
with `source="gemini"` whose content carries the LLM response text, stored
in the cache under the key `category ++ "_" ++ game_name`; for a
"guideline"/"news" category the returned and stored `GameInfo` instead has
`source="web_scraping"` (and carries the scraped snippets, the LLM never
being consulted). -/
theorem getGameContent_stores_by_source (m : CacheManager) (now : Int)
    (category game_name txt ctx : String) (rest : List String)
    (outcome : HttpOutcome) (llm : String → Except String (Option String))
    (hmiss : (m.get (category ++ "_" ++ game_name) now).1 = none)
    (hsnip : scrape_game_info_async outcome = ctx :: rest)
    (hllm : llm (generatePrompt category game_name ctx) = .ok (some txt)) :
    (pyLower category ∉ (["guideline", "news"] : List String) →
      (get_game_content_async m now category game_name outcome llm).info
        = GameInfo.mkDefault [txt] (some "gemini") (some category) none
      ∧ txt ∈ (get_game_content_async m now category game_name outcome llm).info.content
      ∧ (get_game_content_async m now category game_name outcome llm).state.cache
          (category ++ "_" ++ game_name)
        = some ((get_game_content_async m now category game_name outcome llm).info, now))
    ∧ (pyLower category ∈ (["guideline", "news"] : List String) →
      (get_game_content_async m now category game_name outcome llm).info
        = GameInfo.mkDefault (ctx :: rest) (some "web_scraping") (some category) none
      ∧ (get_game_content_async m now category game_name outcome llm).state.cache
          (category ++ "_" ++ game_name)
        = some ((get_game_content_async m now category game_name outcome llm).info, now)) := by
  constructor
  · intro hcat
    have e : get_game_content_async m now category game_name outcome llm
        = ⟨GameInfo.mkDefault [txt] (some "gemini") (some category) none,
           (m.get (category ++ "_" ++ game_name) now).2.set (category ++ "_" ++ game_name)
             (GameInfo.mkDefault [txt] (some "gemini") (some category) none) now, 1, 1⟩ := by
      unfold get_game_content_async
      dsimp only
      rcases hget : m.get (category ++ "_" ++ game_name) now with ⟨o, m1⟩
      rw [hget] at hmiss
      dsimp only at hmiss
      subst hmiss
      dsimp only
      rw [if_neg hcat, hsnip]
      dsimp only
      rw [hllm]
    rw [e]
    refine ⟨rfl, ?_, ?_⟩
    · simp [GameInfo.mkDefault]
    · simp [CacheManager.set]
  · intro hcat
    have e : get_game_content_async m now category game_name outcome llm
        = ⟨GameInfo.mkDefault (ctx :: rest) (some "web_scraping") (some category) none,
           (m.get (category ++ "_" ++ game_name) now).2.set (category ++ "_" ++ game_name)
             (GameInfo.mkDefault (ctx :: rest) (some "web_scraping") (some category) none)
             now, 1, 0⟩ := by
      unfold get_game_content_async
      dsimp only
      rcases hget : m.get (category ++ "_" ++ game_name) now with ⟨o, m1⟩
      rw [hget] at hmiss
      dsimp only at hmiss
      subst hmiss
      dsimp only
      rw [if_pos hcat, hsnip]
    rw [e]
    refine ⟨rfl, ?_⟩
    simp [CacheManager.set]

/-- Concrete runs of C5 at the spec's scenario, once per branch: category
"Review" (stored with `source="gemini"`) and category "News" (stored with
`source="web_scraping"`), each for game "Chess" with a scrape extracting
the snippet "Chess is a two-player strategy game" and an LLM stub echoing
its prompt. -/
theorem getGameContent_stores_by_source_witness :
    ((pyLower "Review" ∉ (["guideline", "news"] : List String) →
      (get_game_content_async (CacheManager.new 3600) 0 "Review" "Chess"
          (HttpOutcome.success 200 ["Chess is a two-player strategy game"])
          (fun p => Except.ok (some p))).info
        = GameInfo.mkDefault
            [generatePrompt "Review" "Chess" "Chess is a two-player strategy game"]
            (some "gemini") (some "Review") none
      ∧ generatePrompt "Review" "Chess" "Chess is a two-player strategy game"
          ∈ (get_game_content_async (CacheManager.new 3600) 0 "Review" "Chess"
              (HttpOutcome.success 200 ["Chess is a two-player strategy game"])
              (fun p => Except.ok (some p))).info.content
      ∧ (get_game_content_async (CacheManager.new 3600) 0 "Review" "Chess"
            (HttpOutcome.success 200 ["Chess is a two-player strategy game"])
            (fun p => Except.ok (some p))).state.cache ("Review" ++ "_" ++ "Chess")
        = some ((get_game_content_async (CacheManager.new 3600) 0 "Review" "Chess"
              (HttpOutcome.success 200 ["Chess is a two-player strategy game"])
              (fun p => Except.ok (some p))).info, 0))
    ∧ (pyLower "Review" ∈ (["guideline", "news"] : List String) →
      (get_game_content_async (CacheManager.new 3600) 0 "Review" "Chess"
          (HttpOutcome.success 200 ["Chess is a two-player strategy game"])
          (fun p => Except.ok (some p))).info
        = GameInfo.mkDefault ["Chess is a two-player strategy game"]
            (some "web_scraping") (some "Review") none
      ∧ (get_game_content_async (CacheManager.new 3600) 0 "Review" "Chess"
            (HttpOutcome.success 200 ["Chess is a two-player strategy game"])
            (fun p => Except.ok (some p))).state.cache ("Review" ++ "_" ++ "Chess")
        = some ((get_game_content_async (CacheManager.new 3600) 0 "Review" "Chess"
              (HttpOutcome.success 200 ["Chess is a two-player strategy game"])
              (fun p => Except.ok (some p))).info, 0)))
    ∧ ((pyLower "News" ∉ (["guideline", "news"] : List String) →
      (get_game_content_async (CacheManager.new 3600) 0 "News" "Chess"
          (HttpOutcome.success 200 ["Chess is a two-player strategy game"])
          (fun p => Except.ok (some p))).info
        = GameInfo.mkDefault
            [generatePrompt "News" "Chess" "Chess is a two-player strategy game"]
            (some "gemini") (some "News") none
      ∧ generatePrompt "News" "Chess" "Chess is a two-player strategy game"
          ∈ (get_game_content_async (CacheManager.new 3600) 0 "News" "Chess"
              (HttpOutcome.success 200 ["Chess is a two-player strategy game"])
              (fun p => Except.ok (some p))).info.content
      ∧ (get_game_content_async (CacheManager.new 3600) 0 "News" "Chess"
            (HttpOutcome.success 200 ["Chess is a two-player strategy game"])
            (fun p => Except.ok (some p))).state.cache ("News" ++ "_" ++ "Chess")
        = some ((get_game_content_async (CacheManager.new 3600) 0 "News" "Chess"
              (HttpOutcome.success 200 ["Chess is a two-player strategy game"])
              (fun p => Except.ok (some p))).info, 0))
    ∧ (pyLower "News" ∈ (["guideline", "news"] : List String) →
      (get_game_content_async (CacheManager.new 3600) 0 "News" "Chess"
          (HttpOutcome.success 200 ["Chess is a two-player strategy game"])
          (fun p => Except.ok (some p))).info
        = GameInfo.mkDefault ["Chess is a two-player strategy game"]
            (some "web_scraping") (some "News") none
      ∧ (get_game_content_async (CacheManager.new 3600) 0 "News" "Chess"
            (HttpOutcome.success 200 ["Chess is a two-player strategy game"])
            (fun p => Except.ok (some p))).state.cache ("News" ++ "_" ++ "Chess")
        = some ((get_game_content_async (CacheManager.new 3600) 0 "News" "Chess"
              (HttpOutcome.success 200 ["Chess is a two-player strategy game"])
              (fun p => Except.ok (some p))).info, 0))) :=
  ⟨getGameContent_stores_by_source (CacheManager.new 3600) 0 "Review" "Chess"
      (generatePrompt "Review" "Chess" "Chess is a two-player strategy game")
      "Chess is a two-player strategy game" []
      (HttpOutcome.success 200 ["Chess is a two-player strategy game"])
      (fun p => Except.ok (some p)) rfl rfl rfl,
   getGameContent_stores_by_source (CacheManager.new 3600) 0 "News" "Chess"
      (generatePrompt "News" "Chess" "Chess is a two-player strategy game")
      "Chess is a two-player strategy game" []
      (HttpOutcome.success 200 ["Chess is a two-player strategy game"])
      (fun p => Except.ok (some p)) rfl rfl rfl⟩

/-- C6: a first call on a cache miss that stores its result, followed by a
second call for the same (category, game) within the expiry window, issues
exactly one scrape/LLM pair in total: the first call scrapes once, the
second call performs no scrape and no LLM invocation and returns the cached
`GameInfo` with the cache state unchanged. -/
theorem getGameContent_second_call_cached (m : CacheManager) (now1 now2 : Int)
    (category game_name : String) (outcome : HttpOutcome)
    (llm : String → Except String (Option String))
    (hmiss : (m.get (category ++ "_" ++ game_name) now1).1 = none)
    (hstored : (get_game_content_async m now1 category game_name outcome llm).state.cache
        (category ++ "_" ++ game_name)
      = some ((get_game_content_async m now1 category game_name outcome llm).info, now1))
    (hfresh : now2 - now1 < m.cache_duration) :
    get_game_content_async
        (get_game_content_async m now1 category game_name outcome llm).state now2
        category game_name outcome llm
      = ⟨(get_game_content_async m now1 category game_name outcome llm).info,
         (get_game_content_async m now1 category game_name outcome llm).state, 0, 0⟩
    ∧ (get_game_content_async m now1 category game_name outcome llm).scrapeCalls = 1 := by
  constructor
  · apply get_game_content_async_hit _ _ _ _ _ _ _ now1 hstored
    rw [get_game_content_async_duration]
    exact hfresh
  · exact get_game_content_async_miss_scrapes m now1 category game_name outcome llm hmiss

/-- Concrete run of C6: the C5 scenario run at time 0 and again at time 10,
well within the 3600-second window. -/
theorem getGameContent_second_call_cached_witness :
    get_game_content_async
        (get_game_content_async (CacheManager.new 3600) 0 "Review" "Chess"
          (HttpOutcome.success 200 ["Chess is a two-player strategy game"])
          (fun p => Except.ok (some p))).state 10 "Review" "Chess"
        (HttpOutcome.success 200 ["Chess is a two-player strategy game"])
        (fun p => Except.ok (some p))
      = ⟨(get_game_content_async (CacheManager.new 3600) 0 "Review" "Chess"
            (HttpOutcome.success 200 ["Chess is a two-player strategy game"])
            (fun p => Except.ok (some p))).info,
         (get_game_content_async (CacheManager.new 3600) 0 "Review" "Chess"
            (HttpOutcome.success 200 ["Chess is a two-player strategy game"])
            (fun p => Except.ok (some p))).state, 0, 0⟩
    ∧ (get_game_content_async (CacheManager.new 3600) 0 "Review" "Chess"
          (HttpOutcome.success 200 ["Chess is a two-player strategy game"])
          (fun p => Except.ok (some p))).scrapeCalls = 1 :=
  getGameContent_second_call_cached (CacheManager.new 3600) 0 10 "Review" "Chess"
    (HttpOutcome.success 200 ["Chess is a two-player strategy game"])
    (fun p => Except.ok (some p)) rfl rfl (by decide)

/-- C7 (amended): when the LLM invocation raises, `get_game_content_async`
returns (does not raise) a `GameInfo` with empty content and a non-None
error message, and stores nothing: the resulting cache state is exactly the
state left by the initial cache lookup — which may already have evicted an
expired entry under the queried key. -/
theorem getGameContent_llm_failure (m : CacheManager) (now : Int)
    (category game_name ctx e : String) (rest : List String)
    (outcome : HttpOutcome) (llm : String → Except String (Option String))
    (hmiss : (m.get (category ++ "_" ++ game_name) now).1 = none)
    (hcat : pyLower category ∉ (["guideline", "news"] : List String))
    (hsnip : scrape_game_info_async outcome = ctx :: rest)
    (hllm : llm (generatePrompt category game_name ctx) = .error e) :
    get_game_content_async m now category game_name outcome llm
      = ⟨GameInfo.mkDefault [] none none (some ("Error generating content: " ++ e)),
         (m.get (category ++ "_" ++ game_name) now).2, 1, 1⟩ := by
  unfold get_game_content_async
  dsimp only
  rcases hget : m.get (category ++ "_" ++ game_name) now with ⟨o, m1⟩
  rw [hget] at hmiss
  dsimp only at hmiss
  subst hmiss
  dsimp only
  rw [if_neg hcat, hsnip]
  dsimp only
  rw [hllm]

/-- Concrete run of the amended C7: empty cache, an LLM raising "boom"; the
call returns the error `GameInfo` and the cache stays as the lookup left
it. -/
theorem getGameContent_llm_failure_witness :
    get_game_content_async (CacheManager.new 3600) 0 "Review" "Chess"
        (HttpOutcome.success 200 ["snip"]) (fun _ => Except.error "boom")
      = ⟨GameInfo.mkDefault [] none none
            (some ("Error generating content: " ++ "boom")),
         ((CacheManager.new 3600).get ("Review" ++ "_" ++ "Chess") 0).2, 1, 1⟩ :=
  getGameContent_llm_failure (CacheManager.new 3600) 0 "Review" "Chess" "snip" "boom" []
    (HttpOutcome.success 200 ["snip"]) (fun _ => Except.error "boom") rfl (by decide)
    rfl rfl

/-- A cache holding one entry for "Review_Chess", written at time 0, as seen
at a query time past the expiry window. -/
def staleCache : CacheManager :=
  { cache := fun k =>
      if k = "Review_Chess" then some (GameInfo.mkDefault ["old"] none none none, 0)
      else none,
    cache_duration := 3600 }

/-- C7 as stated is false on one point: it asserts the cache mapping is left
*unchanged* when the LLM raises, but the initial `cache_manager.get` lookup
evicts an expired entry under the queried key before the LLM ever runs.
Concrete input: a cache holding an entry for "Review_Chess" written at time
0, queried at time 5000 (past the 3600-second window) with an LLM that
raises "boom" — the call returns the error `GameInfo` without storing it,
yet the mapping changed: "Review_Chess" was present before and is gone
after. -/
theorem getGameContent_llm_failure_counterexample :
    staleCache.cache "Review_Chess"
      = some (GameInfo.mkDefault ["old"] none none none, 0)
    ∧ (get_game_content_async staleCache 5000 "Review" "Chess"
        (HttpOutcome.success 200 ["snip"]) (fun _ => Except.error "boom")).info.error
      = some ("Error generating content: " ++ "boom")
    ∧ (get_game_content_async staleCache 5000 "Review" "Chess"
        (HttpOutcome.success 200 ["snip"]) (fun _ => Except.error "boom")).state.cache
        "Review_Chess"
      = none :=
  ⟨rfl, rfl, rfl⟩
